import Mathlib

set_option linter.unusedVariables false

/-!
Shallow embedding of the Living-Docs backend core (document ingestion,
re-ingestion and query endpoints) and proofs about it.

Translated components:
* `app/db/models.py` — `Document`, `Project` records and their status enums.
* `app/db/crud.py` — `update_document_status`, `reset_document_for_reingestion`,
  `create_project`, `update_project`, the `completed_documents` aggregate of
  `get_project_stats`.
* `app/schemas/project.py`, `app/schemas/document.py` — Pydantic field
  validation of `ProjectCreate`, `ProjectUpdate`, `ReingestionRequest`.
* `app/services/ingestion.py` — `IngestionService.ingest_document`: the
  pipeline body is a function of an environment recording what each external
  call (loader, chunker, vector store) returned in the run being modelled.
* `app/api/documents.py` — `save_upload_file`, the upload flow around it,
  and `reingest_document`.
* `app/api/query.py` — the part of `query_documents` that runs before the
  `RAGQueryEngine` is constructed; everything from engine construction on is
  an oracle parameter, and the outcome records whether it was reached.

Integers, timestamps and byte values are modelled as `Nat`/`Int`; database
commits are modelled by returning the updated record.
-/

/-- Document processing status (`DocumentStatus` in `app/db/models.py`). -/
inductive DocumentStatus where
  | pending
  | processing
  | completed
  | failed
deriving DecidableEq, Repr

/-- Project status (`ProjectStatus` in `app/db/models.py`). -/
inductive ProjectStatus where
  | active
  | archived
deriving DecidableEq, Repr

/-- The `Document` record of `app/db/models.py`, restricted to the fields the
claims are about. Timestamps are `Nat`, nullable columns are `Option`. -/
structure Document where
  id : String
  original_filename : String
  file_path : String
  file_size : Option Nat
  status : DocumentStatus
  status_message : Option String
  chunk_count : Nat
  page_count : Option Nat
  character_count : Option Nat
  updated_at : Nat
  processed_at : Option Nat
deriving DecidableEq, Repr

/-- The `Project` record of `app/db/models.py`, restricted to the fields the
claims are about. Chunk parameters are `Int` so that the Pydantic bounds
checks on arbitrary integers can be expressed. -/
structure Project where
  name : String
  description : Option String
  status : ProjectStatus
  chunk_size : Int
  chunk_overlap : Int
deriving DecidableEq, Repr

/-- `crud.update_document_status` (`app/db/crud.py`): sets `status`,
`status_message` and `updated_at` unconditionally, copies each count only
when the corresponding argument is passed, and stamps `processed_at` only on
a transition to COMPLETED. -/
def update_document_status (doc : Document) (status : DocumentStatus)
    (message : Option String) (chunk_count page_count character_count : Option Nat)
    (now : Nat) : Document :=
  let d := { doc with status := status, status_message := message, updated_at := now }
  let d := match chunk_count with
    | some c => { d with chunk_count := c }
    | none => d
  let d := match page_count with
    | some c => { d with page_count := some c }
    | none => d
  let d := match character_count with
    | some c => { d with character_count := some c }
    | none => d
  if status = DocumentStatus.completed then { d with processed_at := some now } else d

/-- `crud.reset_document_for_reingestion` (`app/db/crud.py`): back to PENDING,
clears `status_message` and `processed_at`, zeroes `chunk_count`, touches
`updated_at`. It does not touch `page_count` or `character_count`. -/
def reset_document_for_reingestion (doc : Document) (now : Nat) : Document :=
  { doc with
    status := DocumentStatus.pending
    status_message := none
    chunk_count := 0
    processed_at := none
    updated_at := now }

/-- Helper for the Pydantic `max_length` check on an optional string field. -/
def optLenLe (s : Option String) (n : Nat) : Bool :=
  match s with
  | none => true
  | some t => decide (t.length ≤ n)

/-- The `ProjectCreate` schema (`app/schemas/project.py`). -/
structure ProjectCreate where
  name : String
  description : Option String
  chunk_size : Int
  chunk_overlap : Int
deriving DecidableEq, Repr

/-- Pydantic validation of `ProjectCreate`: `name` has `min_length=1,
max_length=255`, `description` has `max_length=2000`, `chunk_size` has
`ge=100, le=4000`, `chunk_overlap` has `ge=0, le=1000`. There is no
cross-field validator. -/
def projectCreateValid (p : ProjectCreate) : Bool :=
  decide (1 ≤ p.name.length) && decide (p.name.length ≤ 255) &&
  optLenLe p.description 2000 &&
  decide (100 ≤ p.chunk_size) && decide (p.chunk_size ≤ 4000) &&
  decide (0 ≤ p.chunk_overlap) && decide (p.chunk_overlap ≤ 1000)

/-- `crud.create_project` (`app/db/crud.py`): copies the validated fields
into a new ACTIVE project record. -/
def create_project (p : ProjectCreate) : Project :=
  { name := p.name
    description := p.description
    status := ProjectStatus.active
    chunk_size := p.chunk_size
    chunk_overlap := p.chunk_overlap }

/-- The `ProjectUpdate` schema (`app/schemas/project.py`); `none` models a
field absent from the request (`exclude_unset`). -/
structure ProjectUpdate where
  name : Option String
  description : Option String
  status : Option ProjectStatus
  chunk_size : Option Int
  chunk_overlap : Option Int
deriving DecidableEq, Repr

/-- Pydantic validation of `ProjectUpdate`: same per-field bounds as
`ProjectCreate`, applied only to the fields that are present. -/
def projectUpdateValid (u : ProjectUpdate) : Bool :=
  (match u.name with
    | none => true
    | some s => decide (1 ≤ s.length) && decide (s.length ≤ 255)) &&
  optLenLe u.description 2000 &&
  (match u.chunk_size with
    | none => true
    | some v => decide (100 ≤ v) && decide (v ≤ 4000)) &&
  (match u.chunk_overlap with
    | none => true
    | some v => decide (0 ≤ v) && decide (v ≤ 1000))

/-- `crud.update_project` (`app/db/crud.py`): overwrites exactly the fields
present in the update request. -/
def update_project (p : Project) (u : ProjectUpdate) : Project :=
  { p with
    name := u.name.getD p.name
    description := match u.description with
      | some d => some d
      | none => p.description
    status := u.status.getD p.status
    chunk_size := u.chunk_size.getD p.chunk_size
    chunk_overlap := u.chunk_overlap.getD p.chunk_overlap }

/-- The `ReingestionRequest` schema (`app/schemas/document.py`). -/
structure ReingestionRequest where
  chunk_size : Option Int
  chunk_overlap : Option Int
  force : Bool
deriving DecidableEq, Repr

/-- Pydantic validation of `ReingestionRequest`: `chunk_size` has
`ge=100, le=4000` and `chunk_overlap` has `ge=0, le=1000` when present. -/
def reingestionRequestValid (r : ReingestionRequest) : Bool :=
  (match r.chunk_size with
    | none => true
    | some v => decide (100 ≤ v) && decide (v ≤ 4000)) &&
  (match r.chunk_overlap with
    | none => true
    | some v => decide (0 ≤ v) && decide (v ≤ 1000))

/-- Python's `a or b` applied to an optional integer and a fallback: `None`
and `0` are both falsy, so the fallback is used for either. This is how
`reingest_document` combines request values with project defaults. -/
def pyOr (a : Option Int) (b : Int) : Int :=
  match a with
  | some v => if v = 0 then b else v
  | none => b

/-- The per-field bounds that Pydantic validation puts on chunk parameters. -/
def chunkParamsInBounds (cs co : Int) : Prop :=
  100 ≤ cs ∧ cs ≤ 4000 ∧ 0 ≤ co ∧ co ≤ 1000

instance (cs co : Int) : Decidable (chunkParamsInBounds cs co) := by
  unfold chunkParamsInBounds; infer_instance

/-- The exception taxonomy of `app/rag/exceptions.py` as caught by
`ingest_document`; the `unexpected` constructor stands for any exception
outside the four named categories (the `except Exception` catch-all). -/
inductive PipelineExc where
  | unsupportedFileType (detail : String)
  | documentLoadError (detail : String)
  | chunkingError (detail : String)
  | vectorStoreError (detail : String)
  | unexpected (detail : String)
deriving DecidableEq, Repr

/-- One element of the loader's output (`page_content` of a raw document). -/
structure RawPage where
  page_content : String
deriving DecidableEq, Repr

/-- A chunk produced by the chunker, with the source metadata that
`ingest_document` attaches before the vector-store write. -/
structure Chunk where
  text : String
  source : Option String
  source_file : Option String
deriving DecidableEq, Repr

/-- The environment of one `ingest_document` run: what each external call
returned (or raised) in that run. `loadResult` is `self.loader.load`,
`splitResult` is `create_chunker` + `chunker.split_documents`, and
`addResult` is `vectorstore_manager.add_documents`. -/
structure IngestEnv where
  loadResult : Except PipelineExc (List RawPage)
  splitResult : Except PipelineExc (List Chunk)
  addResult : Except PipelineExc Unit
deriving Repr

/-- The `status_message` / returned message each `except` clause of
`ingest_document` builds: the category text followed by the detail. -/
def categoryMessage : PipelineExc → String
  | .unsupportedFileType s => "Unsupported file type: " ++ s
  | .documentLoadError s => "Failed to load document: " ++ s
  | .chunkingError s => "Failed to chunk document: " ++ s
  | .vectorStoreError s => "Failed to store in vector database: " ++ s
  | .unexpected s => "Unexpected error during ingestion: " ++ s

/-- Result of the `try` block of `ingest_document`: either one of the two
in-block `return False` paths (empty extraction, zero chunks) with the
document as updated there, or the success path. -/
inductive BodyResult where
  | earlyFail (doc : Document) (retMessage : String)
  | done (doc : Document) (chunk_count : Nat)
deriving DecidableEq, Repr

/-- The `try` block of `IngestionService.ingest_document`
(`app/services/ingestion.py` lines 74-134), starting from the document
already stamped PROCESSING: load, check non-empty, chunk, check non-empty,
attach source metadata, write to the vector store, then stamp COMPLETED with
the counts. An `Except.error` is an exception reaching the `except` clauses. -/
def tryBody (env : IngestEnv) (d : Document) (now : Nat) :
    Except PipelineExc BodyResult :=
  match env.loadResult with
  | .error e => .error e
  | .ok raw_docs =>
    if raw_docs.isEmpty then
      .ok (.earlyFail
        (update_document_status d DocumentStatus.failed
          (some "No content extracted from document") none none none now)
        "No content extracted from document")
    else
      let total_chars := (raw_docs.map fun p => p.page_content.length).sum
      let page_count := raw_docs.length
      match env.splitResult with
      | .error e => .error e
      | .ok chunks =>
        if chunks.isEmpty then
          .ok (.earlyFail
            (update_document_status d DocumentStatus.failed
              (some "No chunks created from document") none none none now)
            "No chunks created")
        else
          let chunk_count := chunks.length
          let tagged := chunks.map fun c =>
            { c with
              source := some d.original_filename
              source_file := some d.original_filename }
          match env.addResult with
          | .error e => .error e
          | .ok _ =>
            .ok (.done
              (update_document_status d DocumentStatus.completed
                (some "Document processed successfully")
                (some chunk_count) (some page_count) (some total_chars) now)
              chunk_count)

/-- Observable outcome of an `ingest_document` run: the returned
`(success, message, chunk_count)` triple, the final state of the document
record, and the `status` argument of each `crud.update_document_status`
call in order. -/
structure IngestOutcome where
  success : Bool
  message : String
  chunk_count : Nat
  finalDoc : Option Document
  statusTrace : List DocumentStatus
deriving DecidableEq, Repr

/-- `IngestionService.ingest_document` (`app/services/ingestion.py`):
look the document up, stamp PROCESSING, run the `try` block, and map every
raised `PipelineExc` to a FAILED stamp plus a normal return — the `match` on
the error covers every constructor exactly as the chain of `except` clauses
ending in `except Exception` does, so no exception escapes the function. -/
def ingest_document (env : IngestEnv) (lookup : Option Document) (now : Nat) :
    IngestOutcome :=
  match lookup with
  | none => ⟨false, "Document not found", 0, none, []⟩
  | some db_document =>
    let d1 := update_document_status db_document DocumentStatus.processing
      (some "Processing document...") none none none now
    match tryBody env d1 now with
    | .ok (.done d2 n) =>
      ⟨true, "Document processed successfully", n, some d2,
        [DocumentStatus.processing, DocumentStatus.completed]⟩
    | .ok (.earlyFail d2 retMessage) =>
      ⟨false, retMessage, 0, some d2,
        [DocumentStatus.processing, DocumentStatus.failed]⟩
    | .error e =>
      let d2 := update_document_status d1 DocumentStatus.failed
        (some (categoryMessage e)) none none none now
      ⟨false, categoryMessage e, 0, some d2,
        [DocumentStatus.processing, DocumentStatus.failed]⟩

/-- An HTTP error response raised by an endpoint. -/
structure HTTPError where
  status_code : Nat
  detail : String
deriving DecidableEq, Repr

/-- The side effects the re-ingestion endpoint runs, in order:
the vector delete (`delete_document_vectors`), the status reset
(`reset_document_for_reingestion`), and the queued background pipeline run
with the effective chunk parameters. -/
inductive ReingestEvent where
  | deleteVectors
  | resetDocument
  | scheduleIngest (chunk_size chunk_overlap : Int)
deriving DecidableEq, Repr

/-- Observable outcome of a `reingest_document` request: the response (error
or the refreshed document), the side effects in order, and the state of the
document record after the request (if it exists). -/
structure ReingestOutcome where
  result : Except HTTPError Document
  events : List ReingestEvent
  finalDoc : Option Document
deriving Repr

/-- The `reingest_document` endpoint (`app/api/documents.py` lines 424-491):
project lookup, archived check, document lookup, the `COMPLETED and not
force` rejection, then delete vectors, reset the document, and queue the
pipeline with `request.chunk_size or project.chunk_size` (Python `or`, hence
`pyOr`) and likewise for the overlap. -/
def reingest_document (projectLookup : Option Project) (docLookup : Option Document)
    (req : ReingestionRequest) (now : Nat) : ReingestOutcome :=
  match projectLookup with
  | none => ⟨.error ⟨404, "Project not found"⟩, [], docLookup⟩
  | some project =>
    if project.status = ProjectStatus.archived then
      ⟨.error ⟨400, "Cannot modify documents in archived projects"⟩, [], docLookup⟩
    else
      match docLookup with
      | none => ⟨.error ⟨404, "Document not found"⟩, [], none⟩
      | some document =>
        if document.status = DocumentStatus.completed ∧ req.force = false then
          ⟨.error ⟨400, "Document already processed. Set force=true to reprocess."⟩,
            [], some document⟩
        else
          let d2 := reset_document_for_reingestion document now
          let chunk_size := pyOr req.chunk_size project.chunk_size
          let chunk_overlap := pyOr req.chunk_overlap project.chunk_overlap
          ⟨.ok d2,
            [ReingestEvent.deleteVectors, ReingestEvent.resetDocument,
              ReingestEvent.scheduleIngest chunk_size chunk_overlap],
            some d2⟩

/-- The `completed_documents` aggregate of `crud.get_project_stats`
(`app/db/crud.py`): `SUM(CASE WHEN status = COMPLETED THEN 1 ELSE 0 END)`
over the project's documents, with `or 0` turning an empty-table NULL into 0. -/
def get_project_stats_completed (docs : List Document) : Nat :=
  (docs.map fun d => if d.status = DocumentStatus.completed then 1 else 0).sum

/-- Observable outcome of a `query_documents` request: the response and
whether the `RAGQueryEngine` was constructed/invoked. -/
structure QueryOutcome where
  result : Except HTTPError Unit
  engineConstructed : Bool
deriving Repr

/-- The `query_documents` endpoint (`app/api/query.py` lines 34-114) up to
engine construction: project lookup, the zero-COMPLETED-documents rejection,
the `document_ids` validation (run only when the list is non-empty, matching
Python truthiness of both `None` and `[]`). Everything from
`RAGQueryEngine(...)` on is the oracle `engineTail`. -/
def query_documents (projectLookup : Option Project) (docs : List Document)
    (document_ids : List String) (engineTail : Except HTTPError Unit) :
    QueryOutcome :=
  match projectLookup with
  | none => ⟨.error ⟨404, "Project not found"⟩, false⟩
  | some _ =>
    if get_project_stats_completed docs = 0 then
      ⟨.error ⟨400,
        "No processed documents available in this project. Please upload and wait for processing to complete."⟩,
        false⟩
    else
      let valid_doc_ids :=
        ((docs.filter fun d => d.status == DocumentStatus.completed).map fun d => d.id)
      if document_ids.all fun i => valid_doc_ids.contains i then
        ⟨engineTail, true⟩
      else
        ⟨.error ⟨400, "Document not found or not yet processed"⟩, false⟩

/-- `MAX_FILE_SIZE` of `app/api/documents.py`: 50 MB. -/
def MAX_FILE_SIZE : Nat := 50 * 1024 * 1024

/-- Outcome of `save_upload_file`: the returned byte count (or the raised
HTTP error) and the file on disk afterwards (`none` = no file / deleted). -/
structure SaveResult where
  result : Except HTTPError Nat
  fileOnDisk : Option (List Nat)
deriving Repr

/-- `save_upload_file` (`app/api/documents.py` lines 68-90): read the upload
in 8 KB chunks, accumulate the size, and as soon as the accumulated size
exceeds `MAX_FILE_SIZE` delete the partial file and raise HTTP 413; the
overflowing chunk is checked before being written. `remaining` is the part
of the upload not yet read, `written` the file contents so far. -/
def save_upload_file (remaining written : List Nat) (file_size : Nat) : SaveResult :=
  if h : remaining = [] then ⟨.ok file_size, some written⟩
  else
    if MAX_FILE_SIZE < file_size + (remaining.take 8192).length then
      ⟨.error ⟨413, "File size exceeds maximum allowed size of 50 MB"⟩, none⟩
    else
      save_upload_file (remaining.drop 8192) (written ++ remaining.take 8192)
        (file_size + (remaining.take 8192).length)
termination_by remaining.length
decreasing_by
  simp only [List.length_drop]
  exact Nat.sub_lt (List.length_pos.mpr h) (by omega)

/-- Outcome of `upload_document` for one file: the response, whether
`crud.create_document` was reached, and the file on disk afterwards. -/
structure UploadOutcome where
  result : Except HTTPError Unit
  documentCreated : Bool
  fileOnDisk : Option (List Nat)
deriving Repr

/-- The save-then-create part of the `upload_document` endpoint
(`app/api/documents.py` lines 172-215): `crud.create_document` runs only
after `save_upload_file` returns; an `HTTPException` raised by the save is
re-raised unchanged (`except HTTPException: raise`), so on the 413 path no
document record is created and the file was already unlinked by the save. -/
def upload_document (content : List Nat) : UploadOutcome :=
  let s := save_upload_file content [] 0
  match s.result with
  | .error e => ⟨.error e, false, s.fileOnDisk⟩
  | .ok _ => ⟨.ok (), true, s.fileOnDisk⟩

/-- A sample document record used to instantiate the theorems on concrete
inputs: completed metrics filled in, then the status of interest. -/
def mkDoc (st : DocumentStatus) : Document :=
  { id := "d1"
    original_filename := "notes.txt"
    file_path := "/uploads/d1.txt"
    file_size := some 10
    status := st
    status_message := none
    chunk_count := 5
    page_count := some 3
    character_count := some 4500
    updated_at := 0
    processed_at := some 1 }

/-- A sample active project with the default chunk parameters. -/
def mkProject : Project :=
  { name := "p1"
    description := none
    status := ProjectStatus.active
    chunk_size := 1000
    chunk_overlap := 200 }

/-- C1 counterexample: the `ProjectCreate` payload with `name="x"`,
`chunk_size=100`, `chunk_overlap=200` passes Pydantic validation (each field
is inside its own bounds), yet the created project has
`chunk_overlap ≥ chunk_size` — the cross-field invariant is not checked at
creation. -/
theorem c1_counterexample :
    projectCreateValid
      { name := "x", description := none, chunk_size := 100, chunk_overlap := 200 } = true ∧
    ¬ ((create_project
          { name := "x", description := none, chunk_size := 100, chunk_overlap := 200 }).chunk_overlap
        < (create_project
          { name := "x", description := none, chunk_size := 100, chunk_overlap := 200 }).chunk_size) := by
  constructor
  · decide
  · decide

/-- C1 (amended): validation of project creation, project update and
re-ingestion requests enforces only the per-field bounds
`100 ≤ chunk_size ≤ 4000` and `0 ≤ chunk_overlap ≤ 1000` on the effective
chunk parameters; `chunk_overlap < chunk_size` is guaranteed only when
`chunk_overlap < 100` (in particular for the defaults 1000/200). -/
theorem c1_accepted_params_in_bounds :
    (∀ p : ProjectCreate, projectCreateValid p = true →
      chunkParamsInBounds (create_project p).chunk_size (create_project p).chunk_overlap ∧
      ((create_project p).chunk_overlap < 100 →
        (create_project p).chunk_overlap < (create_project p).chunk_size)) ∧
    (∀ (pr : Project) (u : ProjectUpdate), projectUpdateValid u = true →
      chunkParamsInBounds pr.chunk_size pr.chunk_overlap →
      chunkParamsInBounds (update_project pr u).chunk_size (update_project pr u).chunk_overlap) ∧
    (∀ (pr : Project) (r : ReingestionRequest), reingestionRequestValid r = true →
      chunkParamsInBounds pr.chunk_size pr.chunk_overlap →
      chunkParamsInBounds (pyOr r.chunk_size pr.chunk_size) (pyOr r.chunk_overlap pr.chunk_overlap)) := by
  refine ⟨?_, ?_, ?_⟩
  · intro p h
    simp only [projectCreateValid, Bool.and_eq_true, decide_eq_true_eq] at h
    obtain ⟨⟨⟨⟨⟨⟨h1, h2⟩, h3⟩, h4⟩, h5⟩, h6⟩, h7⟩ := h
    refine ⟨⟨h4, h5, h6, h7⟩, ?_⟩
    intro hlt
    exact lt_of_lt_of_le hlt h4
  · intro pr u h hb
    simp only [projectUpdateValid, Bool.and_eq_true] at h
    obtain ⟨⟨⟨hn, hd⟩, hs⟩, ho⟩ := h
    obtain ⟨b1, b2, b3, b4⟩ := hb
    constructor
    · rcases hcs : u.chunk_size with _ | v
      · simpa [update_project, hcs] using b1
      · rw [hcs] at hs
        simp only [Bool.and_eq_true, decide_eq_true_eq] at hs
        simpa [update_project, hcs] using hs.1
    refine ⟨?_, ?_, ?_⟩
    · rcases hcs : u.chunk_size with _ | v
      · simpa [update_project, hcs] using b2
      · rw [hcs] at hs
        simp only [Bool.and_eq_true, decide_eq_true_eq] at hs
        simpa [update_project, hcs] using hs.2
    · rcases hco : u.chunk_overlap with _ | v
      · simpa [update_project, hco] using b3
      · rw [hco] at ho
        simp only [Bool.and_eq_true, decide_eq_true_eq] at ho
        simpa [update_project, hco] using ho.1
    · rcases hco : u.chunk_overlap with _ | v
      · simpa [update_project, hco] using b4
      · rw [hco] at ho
        simp only [Bool.and_eq_true, decide_eq_true_eq] at ho
        simpa [update_project, hco] using ho.2
  · intro pr r h hb
    simp only [reingestionRequestValid, Bool.and_eq_true] at h
    obtain ⟨hs, ho⟩ := h
    obtain ⟨b1, b2, b3, b4⟩ := hb
    constructor
    · rcases hcs : r.chunk_size with _ | v
      · simpa [pyOr, hcs] using b1
      · rw [hcs] at hs
        simp only [Bool.and_eq_true, decide_eq_true_eq] at hs
        have hv : ¬ v = 0 := by omega
        simpa [pyOr, hcs, hv] using hs.1
    refine ⟨?_, ?_, ?_⟩
    · rcases hcs : r.chunk_size with _ | v
      · simpa [pyOr, hcs] using b2
      · rw [hcs] at hs
        simp only [Bool.and_eq_true, decide_eq_true_eq] at hs
        have hv : ¬ v = 0 := by omega
        simpa [pyOr, hcs, hv] using hs.2
    · rcases hco : r.chunk_overlap with _ | v
      · simpa [pyOr, hco] using b3
      · rw [hco] at ho
        simp only [Bool.and_eq_true, decide_eq_true_eq] at ho
        by_cases hv : v = 0
        · simpa [pyOr, hco, hv] using b3
        · simpa [pyOr, hco, hv] using ho.1
    · rcases hco : r.chunk_overlap with _ | v
      · simpa [pyOr, hco] using b4
      · rw [hco] at ho
        simp only [Bool.and_eq_true, decide_eq_true_eq] at ho
        by_cases hv : v = 0
        · simpa [pyOr, hco, hv] using b4
        · simpa [pyOr, hco, hv] using ho.2

/-- C1 witness: the amended theorem applied to a concrete validated payload
(defaults 1000/200), a concrete validated update, and a concrete validated
re-ingestion request against the sample project. -/
theorem c1_accepted_params_in_bounds_witness :
    (chunkParamsInBounds
      (create_project { name := "doc", description := none, chunk_size := 1000, chunk_overlap := 200 }).chunk_size
      (create_project { name := "doc", description := none, chunk_size := 1000, chunk_overlap := 200 }).chunk_overlap ∧
      ((create_project { name := "doc", description := none, chunk_size := 1000, chunk_overlap := 200 }).chunk_overlap < 100 →
        (create_project { name := "doc", description := none, chunk_size := 1000, chunk_overlap := 200 }).chunk_overlap
          < (create_project { name := "doc", description := none, chunk_size := 1000, chunk_overlap := 200 }).chunk_size)) ∧
    chunkParamsInBounds
      (update_project mkProject { name := none, description := none, status := none, chunk_size := some 2000, chunk_overlap := none }).chunk_size
      (update_project mkProject { name := none, description := none, status := none, chunk_size := some 2000, chunk_overlap := none }).chunk_overlap ∧
    chunkParamsInBounds
      (pyOr (some 500) mkProject.chunk_size) (pyOr (some 0) mkProject.chunk_overlap) := by
  refine ⟨?_, ?_, ?_⟩
  · exact c1_accepted_params_in_bounds.1
      { name := "doc", description := none, chunk_size := 1000, chunk_overlap := 200 } (by decide)
  · exact c1_accepted_params_in_bounds.2.1 mkProject
      { name := none, description := none, status := none, chunk_size := some 2000, chunk_overlap := none }
      (by decide) (by decide)
  · exact c1_accepted_params_in_bounds.2.2 mkProject
      { chunk_size := some 500, chunk_overlap := some 0, force := false }
      (by decide) (by decide)

/-- C2 counterexample: resetting the sample COMPLETED document (page_count=3,
character_count=4500) for re-ingestion zeroes `chunk_count` but leaves
`page_count = 3` and `character_count = 4500` in place — they are neither
zero nor empty after the document re-enters PENDING. -/
theorem c2_counterexample :
    (reset_document_for_reingestion (mkDoc DocumentStatus.completed) 7).status
      = DocumentStatus.pending ∧
    (reset_document_for_reingestion (mkDoc DocumentStatus.completed) 7).chunk_count = 0 ∧
    (reset_document_for_reingestion (mkDoc DocumentStatus.completed) 7).page_count = some 3 ∧
    (reset_document_for_reingestion (mkDoc DocumentStatus.completed) 7).character_count = some 4500 ∧
    ¬ ((reset_document_for_reingestion (mkDoc DocumentStatus.completed) 7).page_count = none ∨
       (reset_document_for_reingestion (mkDoc DocumentStatus.completed) 7).page_count = some 0) := by
  refine ⟨rfl, rfl, rfl, rfl, ?_⟩
  decide

/-- C2 (amended): `reset_document_for_reingestion` puts the document back in
PENDING, zeroes `chunk_count` and clears `status_message` and `processed_at`,
but `page_count` and `character_count` keep the values they had. -/
theorem c2_reset_resets_chunk_count_only (doc : Document) (now : Nat) :
    (reset_document_for_reingestion doc now).status = DocumentStatus.pending ∧
    (reset_document_for_reingestion doc now).chunk_count = 0 ∧
    (reset_document_for_reingestion doc now).status_message = none ∧
    (reset_document_for_reingestion doc now).processed_at = none ∧
    (reset_document_for_reingestion doc now).page_count = doc.page_count ∧
    (reset_document_for_reingestion doc now).character_count = doc.character_count := by
  exact ⟨rfl, rfl, rfl, rfl, rfl, rfl⟩

/-- C3: in every `ingest_document` run, any COMPLETED or FAILED entry in the
sequence of status updates is preceded by a PROCESSING entry — the status
never goes straight from PENDING to a terminal state within a run. -/
theorem c3_terminal_after_processing :
    ∀ (env : IngestEnv) (lookup : Option Document) (now : Nat)
      (pre post : List DocumentStatus) (s : DocumentStatus),
      (ingest_document env lookup now).statusTrace = pre ++ s :: post →
      s = DocumentStatus.completed ∨ s = DocumentStatus.failed →
      DocumentStatus.processing ∈ pre := by
  intro env lookup now pre post s htr hs
  rcases lookup with _ | doc
  · simp [ingest_document] at htr
  · simp only [ingest_document] at htr
    rcases h : tryBody env (update_document_status doc DocumentStatus.processing
        (some "Processing document...") none none none now) now with e | b
    · rw [h] at htr
      simp only at htr
      rcases pre with _ | ⟨a, _ | ⟨b', t⟩⟩ <;> simp_all <;>
        rcases hs with rfl | rfl <;> simp_all
    · rcases b with ⟨d2, m⟩ | ⟨d2, n⟩ <;>
        (rw [h] at htr
         simp only at htr
         rcases pre with _ | ⟨a, _ | ⟨b', t⟩⟩ <;> simp_all <;>
           rcases hs with rfl | rfl <;> simp_all)

/-- C3 witness: a fully successful concrete run; its trace is
`[PROCESSING, COMPLETED]` and the theorem yields
`PROCESSING ∈ [PROCESSING]` for the COMPLETED entry. -/
theorem c3_terminal_after_processing_witness :
    DocumentStatus.processing ∈ [DocumentStatus.processing] :=
  c3_terminal_after_processing
    ⟨.ok [⟨"hello"⟩], .ok [⟨"hello", none, none⟩], .ok ()⟩
    (some (mkDoc DocumentStatus.pending)) 1
    [DocumentStatus.processing] [] DocumentStatus.completed
    rfl (Or.inl rfl)

/-- C4: whenever the `try` block of `ingest_document` raises any of the five
exception categories, the run catches it, stamps the document FAILED with a
`status_message` naming the category, and returns `(False, message, 0)`;
no exception escapes (`ingest_document` is total over all environments by
construction, mirroring the exhaustive `except` chain). -/
theorem c4_exceptions_caught :
    ∀ (env : IngestEnv) (doc : Document) (now : Nat) (e : PipelineExc),
      tryBody env (update_document_status doc DocumentStatus.processing
        (some "Processing document...") none none none now) now = Except.error e →
      (ingest_document env (some doc) now).success = false ∧
      (ingest_document env (some doc) now).message = categoryMessage e ∧
      (ingest_document env (some doc) now).chunk_count = 0 ∧
      ∃ d, (ingest_document env (some doc) now).finalDoc = some d ∧
        d.status = DocumentStatus.failed ∧
        d.status_message = some (categoryMessage e) := by
  intro env doc now e h
  simp [update_document_status] at h
  simp [ingest_document, update_document_status, h]

/-- C4 witness: a run whose loader raises `DocumentLoadError "boom"`. -/
theorem c4_exceptions_caught_witness :
    (ingest_document ⟨.error (.documentLoadError "boom"), .ok [], .ok ()⟩
        (some (mkDoc DocumentStatus.pending)) 2).success = false ∧
    (ingest_document ⟨.error (.documentLoadError "boom"), .ok [], .ok ()⟩
        (some (mkDoc DocumentStatus.pending)) 2).message
      = categoryMessage (.documentLoadError "boom") ∧
    (ingest_document ⟨.error (.documentLoadError "boom"), .ok [], .ok ()⟩
        (some (mkDoc DocumentStatus.pending)) 2).chunk_count = 0 ∧
    ∃ d, (ingest_document ⟨.error (.documentLoadError "boom"), .ok [], .ok ()⟩
        (some (mkDoc DocumentStatus.pending)) 2).finalDoc = some d ∧
      d.status = DocumentStatus.failed ∧
      d.status_message = some (categoryMessage (.documentLoadError "boom")) :=
  c4_exceptions_caught ⟨.error (.documentLoadError "boom"), .ok [], .ok ()⟩
    (mkDoc DocumentStatus.pending) 2 (.documentLoadError "boom") rfl

/-- C6: when every stage succeeds (non-empty extraction, at least one chunk,
vector-store write ok), the run goes PROCESSING → COMPLETED, persists
`chunk_count` = number of chunks, `page_count` = number of loaded pages,
`character_count` = total characters loaded, stamps `processed_at`, and
returns `(True, message, chunk_count)` with that same count. -/
theorem c6_success_path :
    ∀ (env : IngestEnv) (doc : Document) (now : Nat)
      (pages : List RawPage) (chunks : List Chunk),
      env.loadResult = .ok pages → pages ≠ [] →
      env.splitResult = .ok chunks → chunks ≠ [] →
      env.addResult = .ok () →
      (ingest_document env (some doc) now).success = true ∧
      (ingest_document env (some doc) now).message = "Document processed successfully" ∧
      (ingest_document env (some doc) now).chunk_count = chunks.length ∧
      (ingest_document env (some doc) now).statusTrace
        = [DocumentStatus.processing, DocumentStatus.completed] ∧
      ∃ d, (ingest_document env (some doc) now).finalDoc = some d ∧
        d.status = DocumentStatus.completed ∧
        d.chunk_count = chunks.length ∧
        d.page_count = some pages.length ∧
        d.character_count = some ((pages.map fun p => p.page_content.length).sum) ∧
        d.processed_at = some now := by
  intro env doc now pages chunks hl hpne hs hcne ha
  obtain ⟨p0, ps, rfl⟩ := List.exists_cons_of_ne_nil hpne
  obtain ⟨c0, cs, rfl⟩ := List.exists_cons_of_ne_nil hcne
  refine ⟨?_, ?_, ?_, ?_, ?_⟩ <;>
    simp only [ingest_document, tryBody, hl, hs, ha, List.isEmpty_cons]
  · rfl
  · rfl
  · rfl
  · rfl
  · simp [update_document_status]

/-- C6 witness: a concrete successful run with two pages and two chunks. -/
theorem c6_success_path_witness :
    (ingest_document ⟨.ok [⟨"ab"⟩, ⟨"cde"⟩], .ok [⟨"ab", none, none⟩, ⟨"cde", none, none⟩], .ok ()⟩
        (some (mkDoc DocumentStatus.pending)) 4).success = true ∧
    (ingest_document ⟨.ok [⟨"ab"⟩, ⟨"cde"⟩], .ok [⟨"ab", none, none⟩, ⟨"cde", none, none⟩], .ok ()⟩
        (some (mkDoc DocumentStatus.pending)) 4).message = "Document processed successfully" ∧
    (ingest_document ⟨.ok [⟨"ab"⟩, ⟨"cde"⟩], .ok [⟨"ab", none, none⟩, ⟨"cde", none, none⟩], .ok ()⟩
        (some (mkDoc DocumentStatus.pending)) 4).chunk_count
      = ([⟨"ab", none, none⟩, ⟨"cde", none, none⟩] : List Chunk).length ∧
    (ingest_document ⟨.ok [⟨"ab"⟩, ⟨"cde"⟩], .ok [⟨"ab", none, none⟩, ⟨"cde", none, none⟩], .ok ()⟩
        (some (mkDoc DocumentStatus.pending)) 4).statusTrace
      = [DocumentStatus.processing, DocumentStatus.completed] ∧
    ∃ d, (ingest_document ⟨.ok [⟨"ab"⟩, ⟨"cde"⟩], .ok [⟨"ab", none, none⟩, ⟨"cde", none, none⟩], .ok ()⟩
        (some (mkDoc DocumentStatus.pending)) 4).finalDoc = some d ∧
      d.status = DocumentStatus.completed ∧
      d.chunk_count = ([⟨"ab", none, none⟩, ⟨"cde", none, none⟩] : List Chunk).length ∧
      d.page_count = some ([⟨"ab"⟩, ⟨"cde"⟩] : List RawPage).length ∧
      d.character_count = some ((([⟨"ab"⟩, ⟨"cde"⟩] : List RawPage).map fun p => p.page_content.length).sum) ∧
      d.processed_at = some 4 :=
  c6_success_path ⟨.ok [⟨"ab"⟩, ⟨"cde"⟩], .ok [⟨"ab", none, none⟩, ⟨"cde", none, none⟩], .ok ()⟩
    (mkDoc DocumentStatus.pending) 4 [⟨"ab"⟩, ⟨"cde"⟩] [⟨"ab", none, none⟩, ⟨"cde", none, none⟩]
    rfl (by simp) rfl (by simp) rfl

/-- C9: on every FAILED outcome of `ingest_document`, the document's
`chunk_count`, `page_count`, `character_count` and `processed_at` keep the
values they had when the run started — FAILED stamps touch only `status`,
`status_message` and `updated_at`. -/
theorem c9_failed_preserves_metrics :
    ∀ (env : IngestEnv) (doc : Document) (now : Nat) (d : Document),
      (ingest_document env (some doc) now).finalDoc = some d →
      d.status = DocumentStatus.failed →
      d.chunk_count = doc.chunk_count ∧
      d.page_count = doc.page_count ∧
      d.character_count = doc.character_count ∧
      d.processed_at = doc.processed_at := by
  intro env doc now d hfd hst
  rcases hl : env.loadResult with e | pages
  · simp only [ingest_document, tryBody, hl] at hfd
    obtain rfl := Option.some.inj hfd
    exact ⟨rfl, rfl, rfl, rfl⟩
  · rcases pages with _ | ⟨p0, ps⟩
    · simp only [ingest_document, tryBody, hl, List.isEmpty_nil] at hfd
      obtain rfl := Option.some.inj hfd
      exact ⟨rfl, rfl, rfl, rfl⟩
    · rcases hs : env.splitResult with e | chunks
      · simp only [ingest_document, tryBody, hl, hs, List.isEmpty_cons] at hfd
        obtain rfl := Option.some.inj hfd
        exact ⟨rfl, rfl, rfl, rfl⟩
      · rcases chunks with _ | ⟨c0, cs⟩
        · simp only [ingest_document, tryBody, hl, hs, List.isEmpty_cons,
            List.isEmpty_nil] at hfd
          obtain rfl := Option.some.inj hfd
          exact ⟨rfl, rfl, rfl, rfl⟩
        · rcases ha : env.addResult with e | u
          · simp only [ingest_document, tryBody, hl, hs, ha, List.isEmpty_cons] at hfd
            obtain rfl := Option.some.inj hfd
            exact ⟨rfl, rfl, rfl, rfl⟩
          · simp only [ingest_document, tryBody, hl, hs, ha, List.isEmpty_cons] at hfd
            obtain rfl := Option.some.inj hfd
            simp [update_document_status] at hst

/-- C9 witness: a run whose vector-store write fails; the FAILED document
keeps the sample document's metrics. -/
theorem c9_failed_preserves_metrics_witness :
    (update_document_status
        (update_document_status (mkDoc DocumentStatus.pending) DocumentStatus.processing
          (some "Processing document...") none none none 9)
        DocumentStatus.failed
        (some (categoryMessage (.vectorStoreError "down"))) none none none 9).chunk_count
      = (mkDoc DocumentStatus.pending).chunk_count ∧
    (update_document_status
        (update_document_status (mkDoc DocumentStatus.pending) DocumentStatus.processing
          (some "Processing document...") none none none 9)
        DocumentStatus.failed
        (some (categoryMessage (.vectorStoreError "down"))) none none none 9).page_count
      = (mkDoc DocumentStatus.pending).page_count ∧
    (update_document_status
        (update_document_status (mkDoc DocumentStatus.pending) DocumentStatus.processing
          (some "Processing document...") none none none 9)
        DocumentStatus.failed
        (some (categoryMessage (.vectorStoreError "down"))) none none none 9).character_count
      = (mkDoc DocumentStatus.pending).character_count ∧
    (update_document_status
        (update_document_status (mkDoc DocumentStatus.pending) DocumentStatus.processing
          (some "Processing document...") none none none 9)
        DocumentStatus.failed
        (some (categoryMessage (.vectorStoreError "down"))) none none none 9).processed_at
      = (mkDoc DocumentStatus.pending).processed_at :=
  c9_failed_preserves_metrics
    ⟨.ok [⟨"x"⟩], .ok [⟨"x", none, none⟩], .error (.vectorStoreError "down")⟩
    (mkDoc DocumentStatus.pending) 9 _ rfl rfl

/-- C5 counterexample: a valid re-ingestion request that supplies
`chunk_overlap = 0` (allowed by the schema's `ge=0`) is accepted, but the
queued pipeline run uses the project default 200 instead of the requested 0:
Python's `request.chunk_overlap or project.chunk_overlap` treats 0 as
falsy, so the fallback is not limited to omitted values. -/
theorem c5_counterexample :
    reingestionRequestValid { chunk_size := none, chunk_overlap := some 0, force := false } = true ∧
    (reingest_document (some mkProject) (some (mkDoc DocumentStatus.failed))
        { chunk_size := none, chunk_overlap := some 0, force := false } 3).events =
      [ReingestEvent.deleteVectors, ReingestEvent.resetDocument,
        ReingestEvent.scheduleIngest 1000 200] ∧
    (200 : Int) ≠ 0 := by
  refine ⟨by decide, by decide, by decide⟩

/-- C5 (amended): every accepted re-ingestion request performs, in order,
the vector delete, then the status reset to PENDING, then the queued
pipeline run; the run's chunk parameters are the requested values with the
project's settings as fallback, where the fallback applies when the value is
omitted or equals 0 (Python `or` truthiness); for a validated request the
`chunk_size` fallback applies exactly when the value is omitted. -/
theorem c5_reingest_flow :
    ∀ (project : Project) (document : Document) (req : ReingestionRequest) (now : Nat),
      project.status ≠ ProjectStatus.archived →
      ¬ (document.status = DocumentStatus.completed ∧ req.force = false) →
      (reingest_document (some project) (some document) req now).events =
        [ReingestEvent.deleteVectors, ReingestEvent.resetDocument,
          ReingestEvent.scheduleIngest (pyOr req.chunk_size project.chunk_size)
            (pyOr req.chunk_overlap project.chunk_overlap)] ∧
      (reingest_document (some project) (some document) req now).result =
        Except.ok (reset_document_for_reingestion document now) ∧
      (reingest_document (some project) (some document) req now).finalDoc =
        some (reset_document_for_reingestion document now) ∧
      (reingestionRequestValid req = true →
        pyOr req.chunk_size project.chunk_size = req.chunk_size.getD project.chunk_size) := by
  intro project document req now h1 h2
  refine ⟨?_, ?_, ?_, ?_⟩
  · simp [reingest_document, h1, h2]
  · simp [reingest_document, h1, h2]
  · simp [reingest_document, h1, h2]
  · intro hv
    rcases hcs : req.chunk_size with _ | v
    · simp [pyOr, hcs]
    · simp only [reingestionRequestValid, hcs, Bool.and_eq_true, decide_eq_true_eq] at hv
      obtain ⟨⟨h100, h4000⟩, hB⟩ := hv
      have hv0 : ¬ v = 0 := by omega
      simp [pyOr, hcs, hv0]

/-- C5 witness: the amended theorem applied to the sample project, a FAILED
document and a validated request supplying both parameters. -/
theorem c5_reingest_flow_witness :
    (reingest_document (some mkProject) (some (mkDoc DocumentStatus.failed))
        { chunk_size := some 500, chunk_overlap := some 100, force := false } 6).events =
      [ReingestEvent.deleteVectors, ReingestEvent.resetDocument,
        ReingestEvent.scheduleIngest
          (pyOr (some 500) mkProject.chunk_size) (pyOr (some 100) mkProject.chunk_overlap)] ∧
    (reingest_document (some mkProject) (some (mkDoc DocumentStatus.failed))
        { chunk_size := some 500, chunk_overlap := some 100, force := false } 6).result =
      Except.ok (reset_document_for_reingestion (mkDoc DocumentStatus.failed) 6) ∧
    (reingest_document (some mkProject) (some (mkDoc DocumentStatus.failed))
        { chunk_size := some 500, chunk_overlap := some 100, force := false } 6).finalDoc =
      some (reset_document_for_reingestion (mkDoc DocumentStatus.failed) 6) ∧
    (reingestionRequestValid { chunk_size := some 500, chunk_overlap := some 100, force := false } = true →
      pyOr (some 500) mkProject.chunk_size = (some (500 : Int)).getD mkProject.chunk_size) :=
  c5_reingest_flow mkProject (mkDoc DocumentStatus.failed)
    { chunk_size := some 500, chunk_overlap := some 100, force := false } 6
    (by decide) (by decide)

/-- C7: with an active project and `force` unset, a re-ingestion request for
a COMPLETED document is rejected with HTTP 400 and nothing happens — no
vector delete, no reset, the record unchanged — while a FAILED document is
accepted and reset without `force`. -/
theorem c7_completed_requires_force :
    ∀ (project : Project) (document : Document) (req : ReingestionRequest) (now : Nat),
      project.status = ProjectStatus.active →
      req.force = false →
      ((document.status = DocumentStatus.completed →
        (reingest_document (some project) (some document) req now).result =
          Except.error ⟨400, "Document already processed. Set force=true to reprocess."⟩ ∧
        (reingest_document (some project) (some document) req now).events = [] ∧
        (reingest_document (some project) (some document) req now).finalDoc = some document) ∧
      (document.status = DocumentStatus.failed →
        (reingest_document (some project) (some document) req now).result =
          Except.ok (reset_document_for_reingestion document now) ∧
        (reingest_document (some project) (some document) req now).events =
          [ReingestEvent.deleteVectors, ReingestEvent.resetDocument,
            ReingestEvent.scheduleIngest (pyOr req.chunk_size project.chunk_size)
              (pyOr req.chunk_overlap project.chunk_overlap)])) := by
  intro project document req now hp hf
  have h1 : ¬ project.status = ProjectStatus.archived := by simp [hp]
  constructor
  · intro hc
    simp [reingest_document, h1, hc, hf]
  · intro hc
    have h2 : ¬ (document.status = DocumentStatus.completed ∧ req.force = false) := by
      simp [hc]
    simp [reingest_document, h1, h2]

/-- C7 witness: the theorem applied to the sample project with a COMPLETED
document (rejected, untouched) and with a FAILED document (accepted). -/
theorem c7_completed_requires_force_witness :
    ((reingest_document (some mkProject) (some (mkDoc DocumentStatus.completed))
        { chunk_size := none, chunk_overlap := none, force := false } 5).result =
      Except.error ⟨400, "Document already processed. Set force=true to reprocess."⟩ ∧
    (reingest_document (some mkProject) (some (mkDoc DocumentStatus.completed))
        { chunk_size := none, chunk_overlap := none, force := false } 5).events = [] ∧
    (reingest_document (some mkProject) (some (mkDoc DocumentStatus.completed))
        { chunk_size := none, chunk_overlap := none, force := false } 5).finalDoc =
      some (mkDoc DocumentStatus.completed)) ∧
    ((reingest_document (some mkProject) (some (mkDoc DocumentStatus.failed))
        { chunk_size := none, chunk_overlap := none, force := false } 5).result =
      Except.ok (reset_document_for_reingestion (mkDoc DocumentStatus.failed) 5) ∧
    (reingest_document (some mkProject) (some (mkDoc DocumentStatus.failed))
        { chunk_size := none, chunk_overlap := none, force := false } 5).events =
      [ReingestEvent.deleteVectors, ReingestEvent.resetDocument,
        ReingestEvent.scheduleIngest (pyOr none mkProject.chunk_size)
          (pyOr none mkProject.chunk_overlap)]) :=
  ⟨(c7_completed_requires_force mkProject (mkDoc DocumentStatus.completed)
      { chunk_size := none, chunk_overlap := none, force := false } 5 rfl rfl).1 rfl,
   (c7_completed_requires_force mkProject (mkDoc DocumentStatus.failed)
      { chunk_size := none, chunk_overlap := none, force := false } 5 rfl rfl).2 rfl⟩

/-- C8: a query against a project none of whose documents are COMPLETED is
rejected with HTTP 400 by the `completed_documents == 0` check, and the
`RAGQueryEngine` is never constructed or invoked. -/
theorem c8_no_completed_documents_rejected :
    ∀ (project : Project) (docs : List Document) (ids : List String)
      (engineTail : Except HTTPError Unit),
      (∀ d ∈ docs, d.status ≠ DocumentStatus.completed) →
      (query_documents (some project) docs ids engineTail).engineConstructed = false ∧
      (query_documents (some project) docs ids engineTail).result =
        Except.error ⟨400,
          "No processed documents available in this project. Please upload and wait for processing to complete."⟩ := by
  intro project docs ids engineTail h
  have hz : get_project_stats_completed docs = 0 := by
    unfold get_project_stats_completed
    apply List.sum_eq_zero
    intro x hx
    obtain ⟨d, hd, rfl⟩ := List.mem_map.mp hx
    simp [h d hd]
  simp [query_documents, hz]

/-- C8 witness: a project whose only documents are PENDING and FAILED. -/
theorem c8_no_completed_documents_rejected_witness :
    (query_documents (some mkProject) [mkDoc DocumentStatus.pending, mkDoc DocumentStatus.failed]
        [] (Except.ok ())).engineConstructed = false ∧
    (query_documents (some mkProject) [mkDoc DocumentStatus.pending, mkDoc DocumentStatus.failed]
        [] (Except.ok ())).result =
      Except.error ⟨400,
        "No processed documents available in this project. Please upload and wait for processing to complete."⟩ :=
  c8_no_completed_documents_rejected mkProject
    [mkDoc DocumentStatus.pending, mkDoc DocumentStatus.failed] [] (Except.ok ())
    (by decide)

/-- If the loop enters with a size already within the limit but the rest of
the upload pushes the total over `MAX_FILE_SIZE`, `save_upload_file` raises
HTTP 413 and deletes the partial file. -/
theorem save_upload_file_exceeds (remaining written : List Nat) (file_size : Nat) :
    file_size ≤ MAX_FILE_SIZE →
    MAX_FILE_SIZE < file_size + remaining.length →
    (save_upload_file remaining written file_size).result =
      Except.error ⟨413, "File size exceeds maximum allowed size of 50 MB"⟩ ∧
    (save_upload_file remaining written file_size).fileOnDisk = none := by
  induction remaining, written, file_size using save_upload_file.induct with
  | case1 written file_size =>
    intro h1 h2
    simp at h2
    omega
  | case2 remaining written file_size h hlt =>
    intro h1 h2
    rw [save_upload_file, dif_neg h, if_pos hlt]
    exact ⟨rfl, rfl⟩
  | case3 remaining written file_size h hnlt ih =>
    intro h1 h2
    rw [save_upload_file, dif_neg h, if_neg hnlt]
    have hlen : (remaining.take 8192).length + (remaining.drop 8192).length
        = remaining.length := by
      simp [List.length_take, List.length_drop]
      omega
    apply ih
    · omega
    · omega

/-- If the whole upload fits within `MAX_FILE_SIZE`, `save_upload_file`
returns the number of bytes written and the file holds exactly the upload. -/
theorem save_upload_file_fits (remaining written : List Nat) (file_size : Nat) :
    file_size + remaining.length ≤ MAX_FILE_SIZE →
    (save_upload_file remaining written file_size).result =
      Except.ok (file_size + remaining.length) ∧
    (save_upload_file remaining written file_size).fileOnDisk =
      some (written ++ remaining) := by
  induction remaining, written, file_size using save_upload_file.induct with
  | case1 written file_size =>
    intro h1
    rw [save_upload_file, dif_pos rfl]
    simp
  | case2 remaining written file_size h hlt =>
    intro h1
    have hchunk : (remaining.take 8192).length ≤ remaining.length := by
      simp [List.length_take]
    omega
  | case3 remaining written file_size h hnlt ih =>
    intro h1
    rw [save_upload_file, dif_neg h, if_neg hnlt]
    have hlen : (remaining.take 8192).length + (remaining.drop 8192).length
        = remaining.length := by
      simp [List.length_take, List.length_drop]
      omega
    have := ih (by omega)
    refine ⟨?_, ?_⟩
    · rw [this.1]
      congr 1
      omega
    · rw [this.2, List.append_assoc, List.take_append_drop]

/-- C10: an upload whose content exceeds `MAX_FILE_SIZE` (50 MB) makes
`save_upload_file` delete the partial file and raise HTTP 413, so the upload
flow creates no document record and leaves no file on disk; an upload at or
under the limit returns a size equal to the number of bytes written, with
the file holding exactly the uploaded content. -/
theorem c10_upload_size_limit :
    (∀ content : List Nat, MAX_FILE_SIZE < content.length →
      (upload_document content).documentCreated = false ∧
      (upload_document content).fileOnDisk = none ∧
      (upload_document content).result =
        Except.error ⟨413, "File size exceeds maximum allowed size of 50 MB"⟩) ∧
    (∀ content : List Nat, content.length ≤ MAX_FILE_SIZE →
      (save_upload_file content [] 0).result = Except.ok content.length ∧
      (save_upload_file content [] 0).fileOnDisk = some content) := by
  constructor
  · intro content h
    have h2 := save_upload_file_exceeds content [] 0 (Nat.zero_le _) (by simpa using h)
    refine ⟨?_, ?_, ?_⟩ <;> simp [upload_document, h2.1, h2.2]
  · intro content h
    have h2 := save_upload_file_fits content [] 0 (by simpa using h)
    simpa using h2

/-- C10 witness: one upload one byte over the limit (no record, no file,
HTTP 413) and one three-byte upload (size 3 returned, contents intact). -/
theorem c10_upload_size_limit_witness :
    ((upload_document (List.replicate (MAX_FILE_SIZE + 1) 0)).documentCreated = false ∧
     (upload_document (List.replicate (MAX_FILE_SIZE + 1) 0)).fileOnDisk = none ∧
     (upload_document (List.replicate (MAX_FILE_SIZE + 1) 0)).result =
       Except.error ⟨413, "File size exceeds maximum allowed size of 50 MB"⟩) ∧
    ((save_upload_file [3, 1, 4] [] 0).result = Except.ok ([3, 1, 4] : List Nat).length ∧
     (save_upload_file [3, 1, 4] [] 0).fileOnDisk = some [3, 1, 4]) :=
  ⟨c10_upload_size_limit.1 (List.replicate (MAX_FILE_SIZE + 1) 0)
      (by simp [List.length_replicate]),
   c10_upload_size_limit.2 [3, 1, 4] (by decide)⟩
